import Mathlib

/-!
Verification of the adeline multi-agent chat program (src/index.ts) against its
specification.  Pure functions and the front-end control flow are embedded
directly from the source.  Behaviour that lives in the external agents library
rather than in this repository (the orchestration run loop, tool approval
gating, capability-server connection handling) is modelled from the
specification; each such definition carries a doc comment beginning
`Modelled from the spec:`.
-/

namespace Adeline

/-! ## Data model (src/index.ts) -/

/-- The `UserContext` interface of the source: `{ name: string }` (lines 40-42). -/
structure UserContext where
  name : String
deriving DecidableEq

/-- The `UserInfo` interface of the source: `{ name: string; uid: number }` (lines 78-81). -/
structure UserInfo where
  name : String
  uid : Nat
deriving DecidableEq

/-- The run context passed to every run call in `runChat`: `{ name: "John", uid: 123 }` (line 138). -/
def userInfo : UserInfo := { name := "John", uid := 123 }

/-- `buildInstructions` (lines 44-48).  The source tests JS truthiness of
`runContext.context.name`; for a value of type `string` that is exactly the
test for being non-empty. -/
def buildInstructions (runContext : UserContext) : String :=
  if runContext.name ≠ "" then
    "The user's name is " ++ runContext.name ++ ". Be extra friendly!"
  else
    "You are a helpful assistant"

/-! ## Tools (src/index.ts) -/

/-- The `needsApproval` predicate of the `get_weather` tool (lines 129-132):
`city === "San Francisco"`. -/
def getWeather_needsApproval (city : String) : Bool :=
  city == "San Francisco"

/-- The `execute` body of the `get_weather` tool (lines 133-135). -/
def getWeather_execute (city : String) : String :=
  "The weather in " ++ city ++ " is sunny."

/-- The `execute` body of the `fetch_user_age` tool (lines 87-92): it reads the
name from the run context. -/
def fetchUserAge_execute (runContext : UserInfo) : String :=
  "User " ++ runContext.name ++ " is 47 years old"

/-- Outcome of submitting one tool call to the approval gate. -/
inductive ToolInvocation where
  | executed (output : String)
  | pendingApproval
  | rejected
deriving DecidableEq

/-- The output visible to the run: a pending or rejected invocation produces none. -/
def ToolInvocation.output : ToolInvocation → Option String
  | .executed s => some s
  | _ => none

/-- Modelled from the spec: the Tool Registry evaluates the `needsApproval`
predicate with the current context and arguments before execution; if it
returns true the invocation enters PendingApproval until an external decision
is supplied, a denied call resolves to a rejection marker, and otherwise the
tool executes immediately (the gate itself is implemented in the external
agents library, not in this repository).  `decision = none` means no approval
decision has been supplied yet. -/
def invokeGetWeather (city : String) (decision : Option Bool) : ToolInvocation :=
  if getWeather_needsApproval city then
    match decision with
    | none => .pendingApproval
    | some true => .executed (getWeather_execute city)
    | some false => .rejected
  else
    .executed (getWeather_execute city)

/-! ## Conversation history -/

/-- HistoryItem, the tagged variant of conversation items. -/
inductive HistoryItem where
  | userMessage (text : String)
  | assistantMessage (text : String)
  | toolCallItem (toolName args : String)
  | toolResultItem (output : String)
  | handoffEvent (source target : String)
deriving DecidableEq

/-! ## Orchestration run loop -/

/-- Modelled from the spec: the possible structured responses of the model backend. -/
inductive ModelResponse where
  | message (text : String)
  | toolCall (toolName args : String)
  | handoff (target : String)

/-- Result of one bounded run of the orchestration loop. -/
inductive RunOutcome where
  | final (output : String) (history : List HistoryItem)
  | maxTurnsExceeded (history : List HistoryItem)
deriving DecidableEq

/-- The history accumulated by a run, whichever way it ended. -/
def RunOutcome.history : RunOutcome → List HistoryItem
  | .final _ h => h
  | .maxTurnsExceeded h => h

/-- Modelled from the spec: the orchestration loop of the Runner (the loop is
implemented in the external agents library, not in this repository).  Each
iteration sends the history to the model backend; a plain message terminates
the run, a tool call appends a ToolCall and ToolResult pair (an unknown tool
name is folded into history as an error-bearing result), and a handoff either
switches the active agent or is folded into history as an error result.  The
fuel argument is the remaining turn budget; exhausting it yields
maxTurnsExceeded with the partial history. -/
def runLoop (model : String → List HistoryItem → ModelResponse)
    (tools : String → String → Option String)
    (handoffAllowed : String → String → Bool) :
    Nat → String → List HistoryItem → RunOutcome
  | 0, _, hist => .maxTurnsExceeded hist
  | fuel + 1, agent, hist =>
    match model agent hist with
    | .message t => .final t (hist ++ [.assistantMessage t])
    | .toolCall nm args =>
        match tools nm args with
        | some out =>
            runLoop model tools handoffAllowed fuel agent
              (hist ++ [.toolCallItem nm args, .toolResultItem out])
        | none =>
            runLoop model tools handoffAllowed fuel agent
              (hist ++ [.toolCallItem nm args, .toolResultItem "UnknownTool"])
    | .handoff target =>
        if handoffAllowed agent target then
          runLoop model tools handoffAllowed fuel target
            (hist ++ [.handoffEvent agent target])
        else
          runLoop model tools handoffAllowed fuel agent
            (hist ++ [.toolResultItem "InvalidHandoff"])

/-- String containment: `pat` occurs contiguously inside `s`. -/
abbrev Incorporates (s pat : String) : Prop :=
  pat.toList <:+: s.toList

/-- The most recent tool result in a history, if any. -/
def lastToolOutput (hist : List HistoryItem) : Option String :=
  hist.reverse.findSome? fun item =>
    match item with
    | .toolResultItem out => some out
    | _ => none

/-- Modelled from the spec: a model backend behaving as the age scenario
requires — it routes the question by calling `fetch_user_age` and, once a tool
result is in the history, answers with a final message that incorporates that
tool result (how the final sentence embeds the tool output is the abstract
`compose` parameter, since the concrete wording is up to the language model). -/
def ageScenarioModel (compose : String → String) :
    String → List HistoryItem → ModelResponse := fun _ hist =>
  match lastToolOutput hist with
  | some out => .message (compose out)
  | none => .toolCall "fetch_user_age" ""

/-- The tool namespace for the age scenario: exactly the local
`fetch_user_age` tool, executed with the run context `userInfo` that `runChat`
passes to every run call (line 209). -/
def ageScenarioTools : String → String → Option String := fun nm _ =>
  if nm == "fetch_user_age" then some (fetchUserAge_execute userInfo) else none

/-! ## Capability servers -/

/-- Modelled from the spec: the connection states of a capability server. -/
inductive ConnState where
  | disconnected
  | connecting
  | connected
  | closed
deriving DecidableEq

/-- Modelled from the spec: `close()` tears down the transport and is
idempotent; closing twice is a no-op and never raises (totality of this
function models the never-raises part).  The implementation lives in the
external agents library, not in this repository. -/
def closeServer : ConnState → ConnState
  | .closed => .closed
  | _ => .closed

/-- Modelled from the spec: `connect()` establishes the transport; on failure
the server is left without a connection. -/
def connectServer (success : Bool) : ConnState → ConnState
  | .disconnected => if success then .connected else .disconnected
  | s => s

/-! ## The front-end chat loop (`runChat`, lines 197-247) -/

/-- The run result as the front end sees it: `finalOutput` is none while the
loop is still iterating internally (null/undefined in the source). -/
structure RunResult where
  finalOutput : Option String
  history : List HistoryItem
deriving DecidableEq

/-- JS truthiness of the check `if (result.finalOutput)` (line 235): an absent
or empty string is falsy. -/
def truthy : Option String → Bool
  | some s => s != ""
  | none => false

/-- How one invocation of the chat loop ends. -/
inductive ChatOutcome where
  | exited (transcript : List HistoryItem)
  | outOfFuel (history : List HistoryItem) (userPrompt : String)
deriving DecidableEq

/-- The while loop of `runChat` (lines 204-241).  `runs i` is the result of
the i-th `run(triageAgent, history, ...)` call and `answers j` the j-th line
returned by `rl.question`; both are oracles because the model backend and the
user are external.  Each iteration first tests the sentinel, then runs, sets
`history = result.history`, and only when `finalOutput` is truthy asks for the
next line and pushes it onto the history.  `exited h` models falling out of
the loop: the source then writes `JSON.stringify(history)` to stdout and calls
`process.exit(0)`, so `h` is the serialized transcript.  The fuel bounds the
iterations because the source loop need not terminate on its own. -/
def runChatLoop (runs : Nat → RunResult) (answers : Nat → String) :
    Nat → Nat → Nat → List HistoryItem → String → ChatOutcome
  | 0, _, _, hist, prompt => .outOfFuel hist prompt
  | fuel + 1, i, j, hist, prompt =>
    if prompt == "/bye" then .exited hist
    else
      let r := runs i
      if truthy r.finalOutput then
        runChatLoop runs answers fuel (i + 1) (j + 1)
          (r.history ++ [.userMessage (answers j)]) (answers j)
      else
        runChatLoop runs answers fuel (i + 1) j r.history prompt

/-- Entry of `runChat(actionPrompt)` (lines 197-203): the history starts with
the initial user message and the loop variable `userPrompt` starts empty. -/
def runChat (runs : Nat → RunResult) (answers : Nat → String) (fuel : Nat)
    (actionPrompt : String) : ChatOutcome :=
  runChatLoop runs answers fuel 0 0 [.userMessage actionPrompt] ""

/-! ## The top-level `main` (lines 249-282), interactive path -/

/-- The externally observable events of `main()`. -/
inductive Ev where
  | connectHttp
  | connectFs
  | questionLine
  | runChatCall
  | writeTranscript
  | closeHttp
  | closeFs
  | logError
deriving DecidableEq

/-- A startup/run scenario for the interactive (TTY) path of `main()`:
which awaited steps succeed. -/
structure Scenario where
  httpConnectOk : Bool
  fsConnectOk : Bool
  promptEmpty : Bool
  chatRaises : Bool
deriving DecidableEq

/-- A scenario in which the session reaches the sentinel and `runChat` calls
`process.exit(0)` itself. -/
def gracefulEnd (s : Scenario) : Bool :=
  s.httpConnectOk && s.fsConnectOk && !s.promptEmpty && !s.chatRaises

/-- The event trace and final process exit code of `main()` on the interactive
path, following the source (lines 249-282) and Node semantics: a rejection
inside the `try` runs the `finally` block (lines 276-279, both `close()`
calls) and then propagates to `main().catch`, which logs it — the rejection is
handled, nothing sets `process.exitCode`, so the process still ends with code
0; whereas `process.exit(0)` inside `runChat` (line 246) terminates the
process at once, so on the graceful path the `finally` block never runs. -/
def mainTrace (s : Scenario) : List Ev × Nat :=
  if s.httpConnectOk = false then
    ([.connectHttp, .closeHttp, .closeFs, .logError], 0)
  else if s.fsConnectOk = false then
    ([.connectHttp, .connectFs, .closeHttp, .closeFs, .logError], 0)
  else if s.promptEmpty = true then
    ([.connectHttp, .connectFs, .questionLine, .closeHttp, .closeFs, .logError], 0)
  else if s.chatRaises = true then
    ([.connectHttp, .connectFs, .questionLine, .runChatCall,
      .closeHttp, .closeFs, .logError], 0)
  else
    ([.connectHttp, .connectFs, .questionLine, .runChatCall, .writeTranscript], 0)

end Adeline

namespace Adeline

/-! ## Helper lemmas -/

/-- When the model backend answers every request with a handoff, the run loop
consumes its whole turn budget and ends in maxTurnsExceeded, with the starting
history still a prefix of the partial history. -/
theorem runLoop_handoff_only (model : String → List HistoryItem → ModelResponse)
    (tools : String → String → Option String)
    (handoffAllowed : String → String → Bool)
    (hself : ∀ a h, ∃ t, model a h = ModelResponse.handoff t) :
    ∀ fuel agent hist, ∃ h',
      runLoop model tools handoffAllowed fuel agent hist
        = RunOutcome.maxTurnsExceeded h' ∧ hist <+: h' := by
  intro fuel
  induction fuel with
  | zero =>
    intro agent hist
    exact ⟨hist, rfl, List.prefix_rfl⟩
  | succ n ih =>
    intro agent hist
    obtain ⟨t, ht⟩ := hself agent hist
    by_cases hall : handoffAllowed agent t = true
    · obtain ⟨h', hrun, hpre⟩ := ih t (hist ++ [HistoryItem.handoffEvent agent t])
      refine ⟨h', ?_, (List.prefix_append _ _).trans hpre⟩
      simpa [runLoop, ht, hall] using hrun
    · obtain ⟨h', hrun, hpre⟩ := ih agent (hist ++ [HistoryItem.toolResultItem "InvalidHandoff"])
      refine ⟨h', ?_, (List.prefix_append _ _).trans hpre⟩
      simpa [runLoop, ht, hall] using hrun

/-! ## Claim theorems -/

/-- C1: the `get_weather` needsApproval predicate returns true exactly for
city = "San Francisco"; with that city the invocation enters PendingApproval,
produces no output until approval is granted, and executes once approved;
with any other city the tool executes immediately with its result. -/
theorem c1_weather_approval (city : String) :
    (getWeather_needsApproval city = true ↔ city = "San Francisco")
    ∧ (city = "San Francisco" →
        invokeGetWeather city none = ToolInvocation.pendingApproval
        ∧ (invokeGetWeather city none).output = none
        ∧ invokeGetWeather city (some true)
            = ToolInvocation.executed (getWeather_execute city))
    ∧ (city ≠ "San Francisco" →
        ∀ decision, invokeGetWeather city decision
          = ToolInvocation.executed ("The weather in " ++ city ++ " is sunny.")) := by
  refine ⟨by simp [getWeather_needsApproval], ?_, ?_⟩
  · intro h
    subst h
    exact ⟨rfl, rfl, rfl⟩
  · intro h decision
    have hb : (city == "San Francisco") = false := by simp [h]
    simp [invokeGetWeather, getWeather_needsApproval, getWeather_execute, hb]

/-- Witness for C1 at the concrete cities "San Francisco" and "Berlin". -/
theorem c1_weather_approval_witness :
    invokeGetWeather "San Francisco" none = ToolInvocation.pendingApproval
    ∧ invokeGetWeather "Berlin" none
        = ToolInvocation.executed "The weather in Berlin is sunny." :=
  ⟨((c1_weather_approval "San Francisco").2.1 rfl).1,
   (c1_weather_approval "Berlin").2.2 (by decide) none⟩

/-- C9: buildInstructions is total and returns exactly one of two strings,
chosen by whether the context name is empty. -/
theorem c9_build_instructions (ctx : UserContext) :
    (ctx.name ≠ "" →
       buildInstructions ctx
         = "The user's name is " ++ ctx.name ++ ". Be extra friendly!")
    ∧ (ctx.name = "" → buildInstructions ctx = "You are a helpful assistant")
    ∧ (buildInstructions ctx
         = "The user's name is " ++ ctx.name ++ ". Be extra friendly!"
       ∨ buildInstructions ctx = "You are a helpful assistant") := by
  by_cases h : ctx.name = "" <;> simp [buildInstructions, h]

/-- Witness for C9 at a non-empty and at an empty name. -/
theorem c9_build_instructions_witness :
    buildInstructions ⟨"John"⟩ = "The user's name is John. Be extra friendly!"
    ∧ buildInstructions ⟨""⟩ = "You are a helpful assistant" :=
  ⟨(c9_build_instructions ⟨"John"⟩).1 (by decide),
   (c9_build_instructions ⟨""⟩).2.1 rfl⟩

/-- C2: with the run context `{name: "John", uid: 123}`, the `fetch_user_age`
execute body returns "User John is 47 years old", and a run on the prompt
"What is the age of the user?" in which the model routes through that tool and
answers with a message incorporating the tool result produces a finalOutput
that incorporates "47". -/
theorem c2_user_age (compose : String → String)
    (hc : ∀ s, Incorporates (compose s) s) :
    fetchUserAge_execute userInfo = "User John is 47 years old"
    ∧ (∃ hist, runLoop (ageScenarioModel compose) ageScenarioTools
        (fun _ _ => true) 2 "Triage Agent"
        [HistoryItem.userMessage "What is the age of the user?"]
        = RunOutcome.final (compose "User John is 47 years old") hist)
    ∧ Incorporates (compose "User John is 47 years old") "47" := by
  refine ⟨rfl, ⟨_, rfl⟩, ?_⟩
  have h47 : Incorporates "User John is 47 years old" "47" := by decide
  exact h47.trans (hc "User John is 47 years old")

/-- Witness for C2 with the model answering with the tool result verbatim. -/
theorem c2_user_age_witness :
    fetchUserAge_execute userInfo = "User John is 47 years old"
    ∧ (∃ hist, runLoop (ageScenarioModel id) ageScenarioTools
        (fun _ _ => true) 2 "Triage Agent"
        [HistoryItem.userMessage "What is the age of the user?"]
        = RunOutcome.final (id "User John is 47 years old") hist)
    ∧ Incorporates (id "User John is 47 years old") "47" :=
  c2_user_age id (fun s => ⟨[], [], by simp⟩)

/-- C6: a run whose model keeps handing off (for example a self-referential
handoff with no terminal branch) exhausts the turn budget and fails with
MaxTurnsExceeded carrying a non-empty partial history, rather than looping
without bound (the run loop is total for every budget). -/
theorem c6_turn_budget (model : String → List HistoryItem → ModelResponse)
    (tools : String → String → Option String)
    (handoffAllowed : String → String → Bool)
    (fuel : Nat) (agent : String) (hist : List HistoryItem)
    (hself : ∀ a h, ∃ t, model a h = ModelResponse.handoff t)
    (hne : hist ≠ []) :
    ∃ h', runLoop model tools handoffAllowed fuel agent hist
      = RunOutcome.maxTurnsExceeded h' ∧ h' ≠ [] := by
  obtain ⟨h', hrun, hpre⟩ :=
    runLoop_handoff_only model tools handoffAllowed hself fuel agent hist
  refine ⟨h', hrun, fun hnil => hne ?_⟩
  have := hpre.length_le
  rw [hnil] at this
  simpa using List.eq_nil_of_length_eq_zero (Nat.le_zero.mp (by simpa using this))

/-- Witness for C6: a triage agent that always hands off to itself, budget 5. -/
theorem c6_turn_budget_witness :
    ∃ h', runLoop (fun _ _ => ModelResponse.handoff "Triage Agent")
        (fun _ _ => none) (fun _ _ => true) 5 "Triage Agent"
        [HistoryItem.userMessage "What is 2 plus 2?"]
      = RunOutcome.maxTurnsExceeded h' ∧ h' ≠ [] :=
  c6_turn_budget _ _ _ 5 "Triage Agent" _
    (fun _ _ => ⟨"Triage Agent", rfl⟩) (by simp)

/-- C7: closing a capability server is idempotent and total (never raises),
including on a server whose connect previously failed. -/
theorem c7_close_idempotent (s : ConnState) :
    closeServer (closeServer s) = closeServer s
    ∧ closeServer ConnState.closed = ConnState.closed
    ∧ (∀ success, closeServer (connectServer success ConnState.disconnected)
        = ConnState.closed) := by
  refine ⟨?_, rfl, fun success => ?_⟩
  · cases s <;> rfl
  · cases success <;> rfl

/-- C8 counterexample: a run result whose finalOutput is non-null but empty —
the claim as stated says the front end then prompts for the next user line and
appends it; the loop instead skips the prompt (the answer oracle is never
consulted, no user message is appended) and just runs again. -/
theorem c8_counterexample :
    truthy (some "") = false
    ∧ runChatLoop (fun _ => ⟨some "", [HistoryItem.assistantMessage "a"]⟩)
        (fun _ => "/bye") 1 0 0 [HistoryItem.userMessage "hi"] ""
      = ChatOutcome.outOfFuel [HistoryItem.assistantMessage "a"] "" :=
  ⟨rfl, rfl⟩

/-- C8 (amended): after each run result whose finalOutput is non-null AND
non-empty the front end prompts for the next user line and appends it to the
history; entering the sentinel ends the session with the full accumulated
history (the sentinel line included) as the serialized transcript. -/
theorem c8_sentinel_transcript (runs : Nat → RunResult) (answers : Nat → String)
    (fuel i j : Nat) (hist : List HistoryItem) (prompt : String)
    (hp : prompt ≠ "/bye") (ht : truthy (runs i).finalOutput = true) :
    (runChatLoop runs answers (fuel + 1) i j hist "/bye" = ChatOutcome.exited hist)
    ∧ (runChatLoop runs answers (fuel + 1) i j hist prompt
        = runChatLoop runs answers fuel (i + 1) (j + 1)
            ((runs i).history ++ [HistoryItem.userMessage (answers j)]) (answers j))
    ∧ (answers j = "/bye" →
        runChatLoop runs answers (fuel + 2) i j hist prompt
        = ChatOutcome.exited ((runs i).history ++ [HistoryItem.userMessage "/bye"])) := by
  have hb : (prompt == "/bye") = false := by simp [hp]
  refine ⟨by simp [runChatLoop], by simp [runChatLoop, hb, ht], fun ha => ?_⟩
  show runChatLoop runs answers (fuel + 1 + 1) i j hist prompt = _
  simp [runChatLoop, hb, ht, ha]

/-- Witness for C8: one truthy run, then the user types the sentinel. -/
theorem c8_sentinel_transcript_witness :
    runChatLoop (fun _ => ⟨some "ok", [HistoryItem.assistantMessage "ok"]⟩)
        (fun _ => "/bye") 2 0 0 [HistoryItem.userMessage "hi"] ""
      = ChatOutcome.exited
          ([HistoryItem.assistantMessage "ok"] ++ [HistoryItem.userMessage "/bye"]) :=
  (c8_sentinel_transcript (fun _ => ⟨some "ok", [HistoryItem.assistantMessage "ok"]⟩)
      (fun _ => "/bye") 0 0 0 [HistoryItem.userMessage "hi"] ""
      (by decide) (by decide)).2.2 rfl

/-- C10: while the most recent finalOutput is null or empty the loop never
prompts the user — the answer index stays at j, nothing is appended beyond
result.history, and the loop variable checked against the sentinel keeps its
old value — so the loop just invokes run again. -/
theorem c10_no_prompt_on_empty (runs : Nat → RunResult) (answers : Nat → String)
    (fuel i j : Nat) (hist : List HistoryItem) (prompt : String)
    (hp : prompt ≠ "/bye") (ht : truthy (runs i).finalOutput = false) :
    runChatLoop runs answers (fuel + 1) i j hist prompt
      = runChatLoop runs answers fuel (i + 1) j (runs i).history prompt := by
  have hb : (prompt == "/bye") = false := by simp [hp]
  simp [runChatLoop, hb, ht]

/-- Witness for C10: a run with no finalOutput loops without consuming input. -/
theorem c10_no_prompt_on_empty_witness :
    runChatLoop (fun _ => ⟨none, [HistoryItem.assistantMessage "t"]⟩)
        (fun _ => "x") 1 0 0 [HistoryItem.userMessage "hi"] ""
      = runChatLoop (fun _ => ⟨none, [HistoryItem.assistantMessage "t"]⟩)
          (fun _ => "x") 0 1 0 [HistoryItem.assistantMessage "t"] "" :=
  c10_no_prompt_on_empty (fun _ => ⟨none, [HistoryItem.assistantMessage "t"]⟩)
    (fun _ => "x") 0 0 0 [HistoryItem.userMessage "hi"] "" (by decide) rfl

/-- C3 counterexample: on the graceful exit path (both connects succeed, a
prompt is given, the run loop ends via the sentinel) `process.exit(0)` inside
`runChat` preempts the `finally` block, so neither `close()` call runs — the
claim that close is called on every exit path fails there. -/
theorem c3_counterexample :
    (mainTrace ⟨true, true, false, false⟩).1.count Ev.closeHttp = 0
    ∧ (mainTrace ⟨true, true, false, false⟩).1.count Ev.closeFs = 0
    ∧ Ev.writeTranscript ∈ (mainTrace ⟨true, true, false, false⟩).1 := by
  decide

/-- C3 (amended): on every exceptional exit path — connect failure of either
server, missing initial prompt, exception in the run loop — the finally block
closes each capability server exactly once; on the graceful sentinel path
`process.exit(0)` inside `runChat` preempts the finally block and no close
runs. -/
theorem c3_close_on_exception (s : Scenario) :
    (gracefulEnd s = false →
       (mainTrace s).1.count Ev.closeHttp = 1
       ∧ (mainTrace s).1.count Ev.closeFs = 1)
    ∧ (gracefulEnd s = true →
       (mainTrace s).1.count Ev.closeHttp = 0
       ∧ (mainTrace s).1.count Ev.closeFs = 0) := by
  obtain ⟨h1, f1, p1, c1⟩ := s
  cases h1 <;> cases f1 <;> cases p1 <;> cases c1 <;>
    exact ⟨fun h => by first | decide | exact absurd h (by decide),
           fun h => by first | decide | exact absurd h (by decide)⟩

/-- Witness for C3 at a failing http connect and at the graceful path. -/
theorem c3_close_on_exception_witness :
    ((mainTrace ⟨false, true, false, false⟩).1.count Ev.closeHttp = 1
      ∧ (mainTrace ⟨false, true, false, false⟩).1.count Ev.closeFs = 1)
    ∧ ((mainTrace ⟨true, true, false, false⟩).1.count Ev.closeHttp = 0
      ∧ (mainTrace ⟨true, true, false, false⟩).1.count Ev.closeFs = 0) :=
  ⟨(c3_close_on_exception ⟨false, true, false, false⟩).1 (by decide),
   (c3_close_on_exception ⟨true, true, false, false⟩).2 (by decide)⟩

/-- C4 counterexample: when connecting the http capability server fails, the
chat session never starts — `runChat` is not invoked, so the run does not
proceed with fewer tools; the error is logged by `main().catch`. -/
theorem c4_counterexample :
    Ev.runChatCall ∉ (mainTrace ⟨false, true, false, false⟩).1
    ∧ Ev.logError ∈ (mainTrace ⟨false, true, false, false⟩).1 := by
  decide

/-- C4 (amended): a capability-server connection failure aborts the whole
startup — the chat loop is never entered — but does not crash the process:
the rejection is caught by `main().catch`, logged, and the process ends with
exit code 0. -/
theorem c4_connect_failure_aborts (s : Scenario)
    (h : s.httpConnectOk = false ∨ s.fsConnectOk = false) :
    Ev.runChatCall ∉ (mainTrace s).1
    ∧ Ev.logError ∈ (mainTrace s).1
    ∧ (mainTrace s).2 = 0 := by
  obtain ⟨h1, f1, p1, c1⟩ := s
  cases h1 <;> cases f1 <;> cases p1 <;> cases c1 <;>
    first
      | decide
      | (rcases h with h | h <;> simp at h)

/-- Witness for C4 at a failing filesystem-server connect. -/
theorem c4_connect_failure_aborts_witness :
    Ev.runChatCall ∉ (mainTrace ⟨true, false, false, false⟩).1
    ∧ Ev.logError ∈ (mainTrace ⟨true, false, false, false⟩).1
    ∧ (mainTrace ⟨true, false, false, false⟩).2 = 0 :=
  c4_connect_failure_aborts ⟨true, false, false, false⟩ (Or.inr rfl)

/-- C5 counterexample: when the user supplies no initial prompt, main throws
"No input prompt provided", but `main().catch` merely logs it, so the process
still exits with code 0 — not the non-zero code the claim requires. -/
theorem c5_counterexample :
    (mainTrace ⟨true, true, true, false⟩).2 = 0
    ∧ Ev.logError ∈ (mainTrace ⟨true, true, true, false⟩).1 := by
  decide

/-- C5 (amended): the process exits with code 0 on the graceful sentinel path
and also on every startup failure, missing initial prompt included, because
the top-level catch handles the rejection and nothing sets a non-zero exit
code. -/
theorem c5_exit_code_always_zero (s : Scenario) : (mainTrace s).2 = 0 := by
  obtain ⟨h1, f1, p1, c1⟩ := s
  cases h1 <;> cases f1 <;> cases p1 <;> cases c1 <;> decide

end Adeline
